import Mathlib

/-!
# Verification of the master-agent orchestrator (`src/master_agent.py`)

A shallow embedding of the supervisor in `master_agent.py`: the sub-agent
registry, the configuration loader, the startup routine, the main-loop cycle
with its exception boundary, and the (spec-modelled) shutdown handler and
per-cycle step bodies that the source file references but does not define.
Python dictionaries are embedded as insertion-ordered association lists,
exceptions as an explicit `Except`, timestamps as natural-number ticks and
float metrics as rationals.
-/

namespace MasterAgentModel

/-- `AgentStatus` enumeration (source lines 42-49). -/
inductive AgentStatus where
  | initializing
  | ready
  | running
  | paused
  | err
  | terminated
  deriving DecidableEq, Repr

/-- Log severities of the `logging` calls appearing in the source. -/
inductive LogLevel where
  | info
  | warning
  | errorLevel
  | critical
  deriving DecidableEq, Repr

/-- A log record: severity plus (abbreviated) message text. -/
abbrev LogEntry := LogLevel × String

/-- Python exceptions raised or caught by the embedded code. -/
inductive PyExc where
  | fileNotFound
  | jsonDecode
  | valueErr (msg : String)
  | attributeErr (name : String)
  | cancelled
  | otherExc (msg : String)
  deriving DecidableEq, Repr

/-- JSON-ish values stored in the configuration dictionary. `jrat` embeds the
float literal `0.02` exactly; the core never computes with it. -/
inductive JVal where
  | jint (n : Int)
  | jstr (s : String)
  | jrat (num : Int) (den : Nat)
  | jstrList (xs : List String)
  deriving DecidableEq, Repr

/-- First-match lookup in an insertion-ordered dictionary (Python `d[k]` /
`d.get(k)` on a dict with unique keys). -/
def dlookup {α : Type} (d : List (String × α)) (k : String) : Option α :=
  (d.find? (fun p => p.1 = k)).map Prod.snd

/-- Python `d[k] = v` on an insertion-ordered dict: replace the value in place
if the key is present, else append the new binding. -/
def dset {α : Type} : List (String × α) → String → α → List (String × α)
  | [], k, v => [(k, v)]
  | (k0, v0) :: rest, k, v =>
    if k0 = k then (k, v) :: rest else (k0, v0) :: dset rest k v

/-- Python `d.update(upd)`: set every binding of `upd` into `d`, in order. -/
def dupdate {α : Type} (d upd : List (String × α)) : List (String × α) :=
  upd.foldl (fun acc p => dset acc p.1 p.2) d

/-- The hardcoded `default_config` dictionary (source lines 118-124). -/
def default_config : List (String × JVal) :=
  [("polling_interval", .jint 60),
   ("max_concurrent_strategies", .jint 10),
   ("risk_tolerance", .jrat 2 100),
   ("markets", .jstrList ["crypto"]),
   ("logging_level", .jstr "INFO")]

/-- The possible contents behind a `config_path`: the file may be absent, hold
unparsable text, parse to a non-dict JSON value, or parse to a JSON object. -/
inductive ConfigDoc where
  | missingFile
  | malformedJson
  | nonDict
  | dict (entries : List (String × JVal))
  deriving DecidableEq, Repr

/-- The fallible part of `_load_config`: `open` + `json.load` + the
`isinstance(loaded_config, dict)` validation (source lines 130-134). -/
def parse_config : ConfigDoc → Except PyExc (List (String × JVal))
  | .missingFile => .error .fileNotFound
  | .malformedJson => .error .jsonDecode
  | .nonDict => .error (.valueErr "Configuration must be a dictionary")
  | .dict es => .ok es

/-- `_load_config` (source lines 116-146): returns the merged configuration and
the log entries it emits; every exception from parsing is caught inside. -/
def load_config (cfgPath : Option ConfigDoc) :
    List (String × JVal) × List LogEntry :=
  match cfgPath with
  | none => (default_config, [])
  | some doc =>
    match parse_config doc with
    | .ok es =>
        (dupdate default_config es, [(.info, "Configuration loaded")])
    | .error .fileNotFound =>
        (default_config, [(.warning, "Config file not found. Using defaults.")])
    | .error .jsonDecode =>
        (default_config, [(.errorLevel, "Invalid JSON in config file")])
    | .error _ =>
        (default_config, [(.errorLevel, "Error loading config")])

/-- `self.config.get("polling_interval", 60)` (source line 192). -/
def get_polling_interval (cfg : List (String × JVal)) : JVal :=
  (dlookup cfg "polling_interval").getD (.jint 60)

-- ### Dictionary lemmas

theorem dlookup_dset_same {α : Type} (d : List (String × α)) (k : String) (v : α) :
    dlookup (dset d k v) k = some v := by
  induction d with
  | nil => simp [dset, dlookup, List.find?]
  | cons p rest ih =>
    by_cases hk : p.1 = k
    · simp [dset, hk, dlookup, List.find?]
    · cases p with
      | mk k0 v0 =>
        simp only at hk
        simp [dset, hk, dlookup, List.find?] at ih ⊢
        exact ih

theorem dlookup_dset_other {α : Type} (d : List (String × α)) (k k' : String)
    (v : α) (hne : k' ≠ k) : dlookup (dset d k v) k' = dlookup d k' := by
  have hne' : k ≠ k' := fun h => hne h.symm
  induction d with
  | nil => simp [dset, dlookup, List.find?, hne']
  | cons p rest ih =>
    cases p with
    | mk k0 v0 =>
      by_cases hk : k0 = k
      · subst hk
        simp [dset, dlookup, List.find?, hne']
      · simp only [dset, hk, if_false]
        by_cases hk' : k0 = k'
        · simp [dlookup, List.find?, hk']
        · simp [dlookup, List.find?, hk'] at ih ⊢
          exact ih

theorem dlookup_dupdate_not_mem {α : Type} (upd d : List (String × α))
    (k : String) (hk : ∀ p ∈ upd, p.1 ≠ k) :
    dlookup (dupdate d upd) k = dlookup d k := by
  induction upd generalizing d with
  | nil => rfl
  | cons p rest ih =>
    have hp : p.1 ≠ k := hk p (List.mem_cons_self p rest)
    have hrest : ∀ q ∈ rest, q.1 ≠ k := fun q hq => hk q (List.mem_cons_of_mem p hq)
    calc dlookup (dupdate d (p :: rest)) k
        = dlookup (dupdate (dset d p.1 p.2) rest) k := rfl
      _ = dlookup (dset d p.1 p.2) k := ih (dset d p.1 p.2) hrest
      _ = dlookup d k := dlookup_dset_other d p.1 k p.2 (fun h => hp h.symm)

theorem dlookup_dupdate_mem {α : Type} (upd d : List (String × α))
    (k : String) (v : α) (hnd : (upd.map Prod.fst).Nodup)
    (hfind : dlookup upd k = some v) :
    dlookup (dupdate d upd) k = some v := by
  induction upd generalizing d with
  | nil => simp [dlookup, List.find?] at hfind
  | cons p rest ih =>
    cases p with
    | mk k0 v0 =>
      by_cases hk : k0 = k
      · subst hk
        have hv : v0 = v := by
          simpa [dlookup, List.find?] using hfind
        subst hv
        rw [List.map_cons] at hnd
        have hcons := List.nodup_cons.mp hnd
        have hnotin : ∀ q ∈ rest, q.1 ≠ k0 := by
          intro q hq hmem
          have hq1 : q.1 ∈ rest.map Prod.fst := List.mem_map_of_mem Prod.fst hq
          rw [hmem] at hq1
          exact hcons.1 hq1
        calc dlookup (dupdate d ((k0, v0) :: rest)) k0
            = dlookup (dupdate (dset d k0 v0) rest) k0 := rfl
          _ = dlookup (dset d k0 v0) k0 :=
              dlookup_dupdate_not_mem rest (dset d k0 v0) k0 hnotin
          _ = some v0 := dlookup_dset_same d k0 v0
      · have hfind' : dlookup rest k = some v := by
          simpa [dlookup, List.find?, hk] using hfind
        rw [List.map_cons] at hnd
        have hnd' : (rest.map Prod.fst).Nodup := (List.nodup_cons.mp hnd).2
        exact ih (dset d k0 v0) hnd' hfind'

theorem dlookup_dupdate_isSome {α : Type} (upd d : List (String × α))
    (k : String) (h : (dlookup d k).isSome) :
    (dlookup (dupdate d upd) k).isSome := by
  induction upd generalizing d with
  | nil => exact h
  | cons p rest ih =>
    have hset : (dlookup (dset d p.1 p.2) k).isSome := by
      by_cases hk : k = p.1
      · subst hk; simp [dlookup_dset_same]
      · rw [dlookup_dset_other d p.1 k p.2 hk]; exact h
    exact ih (dset d p.1 p.2) hset

-- ### Sub-agent registry

/-- How an agent reference behaves when its `start()` coroutine is awaited. -/
inductive StartBehavior where
  | ok
  | raises
  deriving DecidableEq, Repr

/-- An opaque sub-agent reference, described through the capabilities the
supervisor probes with `hasattr`: `none` means no `start` attribute. -/
structure AgentRef where
  startCap : Option StartBehavior
  deriving DecidableEq, Repr

/-- A registry entry as built at source lines 157-162. -/
structure AgentHandle where
  inst : AgentRef
  status : AgentStatus
  registered_at : Nat
  last_heartbeat : Nat
  deriving DecidableEq, Repr

/-- A Python value passed as `agent_id`: a string, or anything else
(`isinstance(agent_id, str)` false). -/
inductive PyId where
  | str (s : String)
  | nonStr
  deriving DecidableEq, Repr

/-- `register_sub_agent` (source lines 148-165): returns the Python result,
the new registry dictionary, and the emitted log entries. -/
def register_sub_agent (reg : List (String × AgentHandle)) (agent_id : PyId)
    (ref : AgentRef) (now : Nat) :
    Bool × List (String × AgentHandle) × List LogEntry :=
  match agent_id with
  | .nonStr => (false, reg, [(.errorLevel, "Invalid agent_id provided")])
  | .str s =>
    if s = "" then (false, reg, [(.errorLevel, "Invalid agent_id provided")])
    else
      let dupWarn : List LogEntry :=
        if (reg.map Prod.fst).contains s then
          [(.warning, "Agent already registered. Updating.")]
        else []
      (true,
       dset reg s { inst := ref, status := .ready,
                    registered_at := now, last_heartbeat := now },
       dupWarn ++ [(.info, "Sub-agent registered successfully")])

/-- One registration request: identifier, reference, and the clock reading. -/
abbrev RegCall := String × AgentRef × Nat

/-- Apply a sequence of `register_sub_agent` calls with string identifiers. -/
def register_all (reg : List (String × AgentHandle)) (calls : List RegCall) :
    List (String × AgentHandle) :=
  calls.foldl
    (fun r c => (register_sub_agent r (.str c.1) c.2.1 c.2.2).2.1) reg

/-- The handle a successful registration installs. -/
def freshHandle (ref : AgentRef) (now : Nat) : AgentHandle :=
  { inst := ref, status := .ready, registered_at := now, last_heartbeat := now }

-- ### Startup of sub-agents

/-- The body of the `for` loop in `_start_sub_agents` before the `except`
(source lines 210-217): `hasattr` probe, `await start()`, then the status
assignment — the assignment is unreachable when `start()` raises. -/
def try_start_agent (h : AgentHandle) :
    Except PyExc (AgentHandle × List LogEntry) :=
  match h.inst.startCap with
  | some .ok => .ok ({ h with status := .running }, [(.info, "Started sub-agent")])
  | some .raises => .error (.otherExc "start failed")
  | none => .ok (h, [(.warning, "Agent has no start method")])

/-- One iteration of `_start_sub_agents` including its `except Exception`
boundary: a raising `start()` only logs, leaving the handle untouched. -/
def start_agent_entry (h : AgentHandle) : AgentHandle × List LogEntry :=
  match try_start_agent h with
  | .ok r => r
  | .error _ => (h, [(.errorLevel, "Failed to start agent")])

/-- `_start_sub_agents` (source lines 207-218): processes every registry entry
in order; returns the updated registry, the (unchanged) global error count,
and all emitted log entries. Nothing in the body touches the error count. -/
def start_sub_agents (reg : List (String × AgentHandle)) (errorCount : Nat) :
    List (String × AgentHandle) × Nat × List LogEntry :=
  (reg.map (fun e => (e.1, (start_agent_entry e.2).1)),
   errorCount,
   reg.foldr (fun e acc => (start_agent_entry e.2).2 ++ acc) [])

-- ### Main-loop cycle with its exception boundary

/-- Mutable loop state threaded through `MasterAgent.start`. -/
structure LoopState where
  status : AgentStatus
  error_count : Nat
  deriving DecidableEq, Repr

/-- What the loop does after the `try` block of one cycle. -/
inductive CycleAction where
  | nextCycle
  | breakLoop
  deriving DecidableEq, Repr

deriving instance DecidableEq for Except

/-- The outcome each awaited step of one cycle would produce, abstracting the
bodies of `_monitor_sub_agents`, `_update_strategies`, `_save_state` and
`_update_metrics` (the source file calls them at lines 180-189 but never
defines them, so in the running program each lookup raises
`AttributeError`, which is one instance of these outcomes). -/
structure CycleOutcomes where
  monitor : Except PyExc Unit
  update : Except PyExc Unit
  persist : Except PyExc Unit
  metrics : Except PyExc Unit
  deriving DecidableEq, Repr

/-- The four step invocations of the `try` block, in source order; the first
raising step aborts the rest, exactly as in Python. -/
def cycle_steps (oc : CycleOutcomes) : Except PyExc Unit := do
  oc.monitor
  oc.update
  oc.persist
  oc.metrics

/-- The result of one pass through the loop body of `MasterAgent.start`. -/
structure CycleResult where
  state : LoopState
  action : CycleAction
  slept : Option JVal
  logs : List LogEntry
  deriving DecidableEq, Repr

/-- One iteration of the `while` body (source lines 178-200): steps, then
`sleep(polling_interval)` on success; `except asyncio.CancelledError` breaks;
`except Exception` logs at error severity, bumps `error_count`, and sleeps the
fixed 5-second backoff before the next cycle. -/
def run_cycle (cfg : List (String × JVal)) (oc : CycleOutcomes)
    (st : LoopState) : CycleResult :=
  match cycle_steps oc with
  | .ok _ =>
      { state := st, action := .nextCycle,
        slept := some (get_polling_interval cfg), logs := [] }
  | .error .cancelled =>
      { state := st, action := .breakLoop, slept := none,
        logs := [(.info, "Main loop cancelled")] }
  | .error _ =>
      { state := { st with error_count := st.error_count + 1 },
        action := .nextCycle, slept := some (.jint 5),
        logs := [(.errorLevel, "Error in main loop")] }

-- ### Shutdown handler and loop trace

/-- Modelled from the spec: `__init__` registers `self._handle_shutdown` for
SIGINT/SIGTERM (source lines 89-90) but the method body is absent from the
source file. Per spec section 4.6 the handler drives the loop to the clean
terminal state by flipping the loop status, which the `while` condition at
source line 177 then observes. -/
def handle_shutdown (st : LoopState) : LoopState :=
  { st with status := .terminated }

/-- Atomic events of the main loop, in the order the body executes them. -/
inductive LoopEv where
  | evMonitor
  | evUpdate
  | evPersist
  | evMetrics
  | evSleep (d : JVal)
  deriving DecidableEq, Repr

/-- Deliver a pending stop signal: at tick `stopAt` the (spec-modelled)
shutdown handler runs; at every other tick the state passes through. -/
def deliver (stopAt tick : Nat) (st : LoopState) : LoopState :=
  if tick = stopAt then handle_shutdown st else st

/-- The `while self.status == RUNNING` loop of `MasterAgent.start` on the
success path (every step completes), instrumented with a signal-delivery
schedule: the handler may run before any of the five atomic events of a
cycle, one event per tick. The cycle body itself never consults the status;
only the `while` condition at the top does, exactly as in the source. -/
def run_loop (fuel : Nat) (cfg : List (String × JVal)) (stopAt tick : Nat)
    (st : LoopState) : List LoopEv × LoopState :=
  match fuel with
  | 0 => ([], st)
  | fuel' + 1 =>
    if st.status = AgentStatus.running then
      let st1 := deliver stopAt tick st
      let st2 := deliver stopAt (tick + 1) st1
      let st3 := deliver stopAt (tick + 2) st2
      let st4 := deliver stopAt (tick + 3) st3
      let st5 := deliver stopAt (tick + 4) st4
      let evs : List LoopEv :=
        [.evMonitor, .evUpdate, .evPersist, .evMetrics,
         .evSleep (get_polling_interval cfg)]
      let rest := run_loop fuel' cfg stopAt (tick + 5) st5
      (evs ++ rest.1, rest.2)
    else ([], st)

-- ### Spec-modelled cycle bodies and metrics

/-- System metrics (source lines 58-65, 75-80); floats embedded as rationals,
the timestamp as a tick. -/
structure SystemMetrics where
  uptime : ℚ
  success_rate : ℚ
  error_count : Nat
  last_active : Nat
  performance_score : ℚ
  deriving DecidableEq, Repr

/-- The metrics record built in `__init__` (source lines 75-80). -/
def initial_metrics (now : Nat) : SystemMetrics :=
  { uptime := 0, success_rate := 1, error_count := 0,
    last_active := now, performance_score := 0 }

/-- Modelled from the spec: `_update_metrics` is called at source line 189 but
absent from the source file. Per spec section 4.5, `success_rate` and
`performance_score` are recomputed from the ratio of agents that completed
their monitor+update steps without error to the total agent count, with zero
agents defined as a success rate of 1.0 rather than a division error. -/
def update_metrics_spec (okCount total : Nat) (now : Nat)
    (m : SystemMetrics) : SystemMetrics :=
  let rate : ℚ := if total = 0 then 1 else (okCount : ℚ) / (total : ℚ)
  { m with success_rate := rate, performance_score := rate,
           last_active := now }

/-- Modelled from the spec: `_monitor_sub_agents`, `_update_strategies`,
`_save_state` and `_update_metrics` are called from `MasterAgent.start`
(source lines 180-189) but absent from the source file. Per spec section 4.4,
monitor and update handle each agent under per-agent isolation (failures,
given by `agentFails`, are recorded and never escalated), persistence is
skipped entirely when the handle is absent, and metrics are recomputed per
spec section 4.5. The whole cycle is a total function: it never raises. -/
def run_full_cycle_spec (agentFails : String → Bool)
    (reg : List (String × AgentHandle)) (persistPresent : Bool)
    (m : SystemMetrics) (now : Nat) : SystemMetrics × List LoopEv :=
  let okCount := (reg.filter (fun e => !(agentFails e.1))).length
  let evs : List LoopEv :=
    [.evMonitor, .evUpdate] ++
      (if persistPresent then [.evPersist] else []) ++ [.evMetrics]
  (update_metrics_spec okCount reg.length now m, evs)

-- ### Construction of the master agent

/-- The method names bound in the class body of `MasterAgent`
(source lines 70-218); attribute lookup on an instance falls back to these.
`_handle_shutdown`, `_monitor_sub_agents`, `_update_strategies`, `_save_state`
and `_update_metrics` are referenced in the source but absent from this set. -/
def masterAgentMethods : List String :=
  ["__init__", "_init_firebase", "_load_config",
   "register_sub_agent", "start", "_start_sub_agents"]

/-- Attribute lookup `self.<name>` for a bound method: `__init__` sets no
callable attributes on the instance, so only the class body is consulted;
a miss raises `AttributeError`. -/
def getattr_method (name : String) : Except PyExc String :=
  if masterAgentMethods.contains name then .ok name
  else .error (.attributeErr name)

/-- The state `__init__` would produce if it completed. -/
structure MasterAgentState where
  status : AgentStatus
  sub_agents : List (String × AgentHandle)
  metrics : SystemMetrics
  config : List (String × JVal)
  deriving DecidableEq, Repr

/-- `MasterAgent.__init__` (source lines 70-92): field setup, Firebase probe
(caught internally, modelled as absent), `_load_config` (catches internally),
then `signal.signal(signal.SIGINT, self._handle_shutdown)` — whose argument
is an attribute lookup evaluated before `signal.signal` is entered. -/
def master_agent_init (cfgPath : Option ConfigDoc) (now : Nat) :
    Except PyExc MasterAgentState :=
  let cfg := (load_config cfgPath).1
  match getattr_method "_handle_shutdown" with
  | .error e => .error e
  | .ok _ =>
      .ok { status := .initializing, sub_agents := [],
            metrics := initial_metrics now, config := cfg }

-- ### Registry lemmas

theorem mem_keys_dset {α : Type} (d : List (String × α)) (k x : String)
    (v : α) (hx : x ∈ (dset d k v).map Prod.fst) :
    x ∈ d.map Prod.fst ∨ x = k := by
  induction d with
  | nil => simpa [dset] using hx
  | cons p rest ih =>
    cases p with
    | mk k0 v0 =>
      by_cases hk : k0 = k
      · subst hk
        simp [dset] at hx
        rcases hx with hx | hx
        · right; exact hx
        · left; simp [hx]
      · simp [dset, hk] at hx
        rcases hx with hx | hx
        · left; simp [hx]
        · rcases ih (by simpa using hx) with h | h
          · left; simp [h]
          · right; exact h

theorem nodup_keys_dset {α : Type} (d : List (String × α)) (k : String)
    (v : α) (hnd : (d.map Prod.fst).Nodup) :
    ((dset d k v).map Prod.fst).Nodup := by
  induction d with
  | nil => simp [dset]
  | cons p rest ih =>
    cases p with
    | mk k0 v0 =>
      rw [List.map_cons] at hnd
      have hcons := List.nodup_cons.mp hnd
      by_cases hk : k0 = k
      · subst hk
        simpa [dset] using hnd
      · rw [show dset ((k0, v0) :: rest) k v = (k0, v0) :: dset rest k v from
          by simp [dset, hk]]
        rw [List.map_cons, List.nodup_cons]
        refine ⟨?_, ih hcons.2⟩
        intro hmem
        rcases mem_keys_dset rest k k0 v hmem with h | h
        · exact hcons.1 h
        · exact hk h

theorem register_all_nodup_keys (calls : List RegCall)
    (reg : List (String × AgentHandle))
    (hvalid : ∀ c ∈ calls, c.1 ≠ "")
    (hnd : (reg.map Prod.fst).Nodup) :
    ((register_all reg calls).map Prod.fst).Nodup := by
  induction calls generalizing reg with
  | nil => exact hnd
  | cons c cs ih =>
    have hc : c.1 ≠ "" := hvalid c (List.mem_cons_self c cs)
    have hcs : ∀ x ∈ cs, x.1 ≠ "" :=
      fun x hx => hvalid x (List.mem_cons_of_mem c hx)
    have hstep : register_all reg (c :: cs) =
        register_all (dset reg c.1 (freshHandle c.2.1 c.2.2)) cs := by
      simp [register_all, register_sub_agent, hc, freshHandle]
    rw [hstep]
    exact ih _ hcs (nodup_keys_dset reg c.1 _ hnd)

theorem register_all_dlookup (calls : List RegCall)
    (reg : List (String × AgentHandle))
    (hvalid : ∀ c ∈ calls, c.1 ≠ "") (id : String) :
    dlookup (register_all reg calls) id =
      match calls.reverse.find? (fun c => c.1 = id) with
      | some c => some (freshHandle c.2.1 c.2.2)
      | none => dlookup reg id := by
  induction calls generalizing reg with
  | nil => rfl
  | cons c cs ih =>
    have hc : c.1 ≠ "" := hvalid c (List.mem_cons_self c cs)
    have hcs : ∀ x ∈ cs, x.1 ≠ "" :=
      fun x hx => hvalid x (List.mem_cons_of_mem c hx)
    have hstep : register_all reg (c :: cs) =
        register_all (dset reg c.1 (freshHandle c.2.1 c.2.2)) cs := by
      simp [register_all, register_sub_agent, hc, freshHandle]
    rw [hstep, ih _ hcs, List.reverse_cons, List.find?_append]
    rcases hfind : cs.reverse.find? (fun x => x.1 = id) with _ | x
    · by_cases hid : c.1 = id
      · simp [Option.or, hfind, hid, dlookup_dset_same]
      · simp [Option.or, hfind, hid]
        exact dlookup_dset_other reg c.1 id _ (fun h => hid h.symm)
    · simp [Option.or, hfind]

-- ## Claim theorems

/-- C3: for every config_path argument (and clock reading), constructing
`MasterAgent` raises `AttributeError` for `_handle_shutdown` and never
completes: the constructor installs `self._handle_shutdown` as the
SIGINT/SIGTERM handler, but no such method exists in the class body. -/
theorem init_always_raises_attribute_lookup
    (cfgPath : Option ConfigDoc) (now : Nat) :
    master_agent_init cfgPath now =
      Except.error (PyExc.attributeErr "_handle_shutdown") := rfl

/-- C5: registering with an empty-string or non-string identifier returns
`False`, logs an error, and leaves the registry dictionary exactly as it
was — no entry added, removed, or modified. -/
theorem register_invalid_id_rejected (reg : List (String × AgentHandle))
    (ref : AgentRef) (now : Nat) :
    register_sub_agent reg .nonStr ref now =
      (false, reg, [(.errorLevel, "Invalid agent_id provided")]) ∧
    register_sub_agent reg (.str "") ref now =
      (false, reg, [(.errorLevel, "Invalid agent_id provided")]) := by
  constructor <;> rfl

/-- C6: loading configuration never raises to the caller; a well-formed
mapping is merged key-by-key over the defaults (document values win for
present keys, defaults survive for absent keys); a missing or malformed
source yields exactly the defaults with only a logged warning or error. -/
theorem load_config_merge_and_fallback (doc : ConfigDoc) :
    (∀ es, doc = .dict es → (es.map Prod.fst).Nodup →
       ∀ k v, dlookup es k = some v →
         dlookup (load_config (some doc)).1 k = some v) ∧
    (∀ es, doc = .dict es →
       ∀ k, (∀ p ∈ es, p.1 ≠ k) →
         dlookup (load_config (some doc)).1 k = dlookup default_config k) ∧
    (doc = .missingFile →
       load_config (some doc) =
         (default_config,
          [(.warning, "Config file not found. Using defaults.")])) ∧
    (doc = .malformedJson →
       load_config (some doc) =
         (default_config, [(.errorLevel, "Invalid JSON in config file")])) ∧
    (doc = .nonDict →
       load_config (some doc) =
         (default_config, [(.errorLevel, "Error loading config")])) ∧
    load_config none = (default_config, []) := by
  refine ⟨?_, ?_, ?_, ?_, ?_, rfl⟩
  · intro es heq hnd k v hfind
    subst heq
    simpa [load_config, parse_config] using
      dlookup_dupdate_mem es default_config k v hnd hfind
  · intro es heq k habsent
    subst heq
    simpa [load_config, parse_config] using
      dlookup_dupdate_not_mem es default_config k habsent
  · intro heq; subst heq; rfl
  · intro heq; subst heq; rfl
  · intro heq; subst heq; rfl

/-- Witness for C6 at a concrete document overriding one recognized key. -/
theorem load_config_merge_and_fallback_witness :
    dlookup (load_config (some (.dict [("polling_interval", .jint 30)]))).1
        "polling_interval" = some (.jint 30) ∧
    dlookup (load_config (some (.dict [("polling_interval", .jint 30)]))).1
        "markets" = dlookup default_config "markets" ∧
    load_config (some .missingFile) =
      (default_config,
       [(.warning, "Config file not found. Using defaults.")]) := by
  refine ⟨?_, ?_, ?_⟩
  · exact (load_config_merge_and_fallback
      (.dict [("polling_interval", .jint 30)])).1 _ rfl (by decide) _ _
      (by decide)
  · exact (load_config_merge_and_fallback
      (.dict [("polling_interval", .jint 30)])).2.1 _ rfl "markets" (by decide)
  · exact (load_config_merge_and_fallback .missingFile).2.2.1 rfl

/-- C8: with zero registered agents, one full (spec-modelled) cycle completes
as a total function — nothing raises — and after the metrics step the
success rate is exactly 1, via the explicit zero-total branch rather than a
division. -/
theorem empty_registry_cycle_success_rate_one (agentFails : String → Bool)
    (persistPresent : Bool) (m : SystemMetrics) (now : Nat) :
    (run_full_cycle_spec agentFails [] persistPresent m now).1.success_rate
        = 1 ∧
    LoopEv.evMetrics ∈ (run_full_cycle_spec agentFails [] persistPresent
        m now).2 := by
  constructor
  · rfl
  · cases persistPresent <;> simp [run_full_cycle_spec]

/-- C10: whatever the config source holds, the loaded configuration still
binds all five recognized keys: the merge only adds or overrides bindings
over the defaults and never removes one. -/
theorem load_config_retains_all_recognized_keys (cfgPath : Option ConfigDoc) :
    (dlookup (load_config cfgPath).1 "polling_interval").isSome = true ∧
    (dlookup (load_config cfgPath).1 "max_concurrent_strategies").isSome
        = true ∧
    (dlookup (load_config cfgPath).1 "risk_tolerance").isSome = true ∧
    (dlookup (load_config cfgPath).1 "markets").isSome = true ∧
    (dlookup (load_config cfgPath).1 "logging_level").isSome = true := by
  match cfgPath with
  | none => decide
  | some .missingFile => decide
  | some .malformedJson => decide
  | some .nonDict => decide
  | some (.dict es) =>
    refine ⟨?_, ?_, ?_, ?_, ?_⟩ <;>
      · show (dlookup (dupdate default_config es) _).isSome = true
        exact dlookup_dupdate_isSome es default_config _ (by decide)

-- ### Sample agent references used by witnesses and counterexamples

/-- An agent whose `start()` completes. -/
def refStartOk : AgentRef := { startCap := some .ok }

/-- An agent whose `start()` raises. -/
def refStartRaises : AgentRef := { startCap := some .raises }

/-- An agent without a `start` attribute. -/
def refNoStart : AgentRef := { startCap := none }

theorem register_sub_agent_valid (reg : List (String × AgentHandle))
    (s : String) (ref : AgentRef) (now : Nat) (hs : s ≠ "") :
    register_sub_agent reg (.str s) ref now =
      (true, dset reg s (freshHandle ref now),
       (if (reg.map Prod.fst).contains s
        then [((LogLevel.warning, "Agent already registered. Updating.") :
                 LogEntry)]
        else []) ++ [(.info, "Sub-agent registered successfully")]) := by
  simp [register_sub_agent, hs, freshHandle]

/-- C4: after any sequence of valid registrations starting from the empty
registry, there is exactly one handle per distinct identifier (keys are
duplicate-free), and each identifier maps to the reference, `Ready` status and
timestamp of its last `register_sub_agent` call; a duplicate registration
succeeds, logs a warning, and overwrites the handle with a fresh one. -/
theorem registry_last_registration_wins (calls : List RegCall)
    (hvalid : ∀ c ∈ calls, c.1 ≠ "") :
    ((register_all [] calls).map Prod.fst).Nodup ∧
    (∀ id, dlookup (register_all [] calls) id =
       match calls.reverse.find? (fun c => c.1 = id) with
       | some c => some (freshHandle c.2.1 c.2.2)
       | none => none) ∧
    (∀ reg s ref now, s ≠ "" →
       (reg.map Prod.fst).contains s = true →
       (register_sub_agent reg (.str s) ref now).1 = true ∧
       (register_sub_agent reg (.str s) ref now).2.2 =
         [(.warning, "Agent already registered. Updating."),
          (.info, "Sub-agent registered successfully")] ∧
       dlookup (register_sub_agent reg (.str s) ref now).2.1 s =
         some (freshHandle ref now)) := by
  refine ⟨register_all_nodup_keys calls [] hvalid (by simp), ?_, ?_⟩
  · intro id
    rw [register_all_dlookup calls [] hvalid id]
    rcases calls.reverse.find? (fun c => c.1 = id) with _ | c
    · rfl
    · rfl
  · intro reg s ref now hs hmem
    rw [register_sub_agent_valid reg s ref now hs, hmem]
    refine ⟨rfl, by simp, dlookup_dset_same reg s (freshHandle ref now)⟩

/-- Witness for C4: three registrations, `a` registered twice. -/
theorem registry_last_registration_wins_witness :
    ((register_all []
        [("a", refStartOk, 0), ("b", refNoStart, 1),
         ("a", refStartRaises, 2)]).map Prod.fst).Nodup ∧
    dlookup (register_all []
        [("a", refStartOk, 0), ("b", refNoStart, 1),
         ("a", refStartRaises, 2)]) "a" =
      some (freshHandle refStartRaises 2) ∧
    dlookup (register_all []
        [("a", refStartOk, 0), ("b", refNoStart, 1),
         ("a", refStartRaises, 2)]) "b" = some (freshHandle refNoStart 1) := by
  have h := registry_last_registration_wins
    [("a", refStartOk, 0), ("b", refNoStart, 1), ("a", refStartRaises, 2)]
    (by decide)
  refine ⟨h.1, ?_, ?_⟩
  · rw [h.2.1 "a"]; decide
  · rw [h.2.1 "b"]; decide

-- ### Startup lemmas

theorem start_agent_entry_fst (h : AgentHandle) :
    (start_agent_entry h).1 =
      if h.inst.startCap = some .ok
      then { h with status := .running } else h := by
  rcases hc : h.inst.startCap with _ | b
  · simp [start_agent_entry, try_start_agent, hc]
  · cases b <;> simp [start_agent_entry, try_start_agent, hc]

theorem mem_start_sub_agents_logs (reg : List (String × AgentHandle))
    (errc : Nat) (e : String × AgentHandle) (he : e ∈ reg)
    (x : LogEntry) (hx : x ∈ (start_agent_entry e.2).2) :
    x ∈ (start_sub_agents reg errc).2.2 := by
  induction reg with
  | nil => cases he
  | cons p rest ih =>
    rcases List.mem_cons.mp he with he' | he'
    · subst he'
      exact List.mem_append_left _ hx
    · exact List.mem_append_right _ (ih he')

/-- C9: during startup every registered agent lacking a `start` attribute is
logged and skipped without raising — its handle (status included) is
unchanged, so an agent registered `Ready` stays `Ready` — and every agent
whose `start()` succeeds ends with status `Running`; the routine processes the
whole registry and is total (no exception escapes). -/
theorem startup_capability_detection (reg : List (String × AgentHandle))
    (errc : Nat) :
    ((start_sub_agents reg errc).1 =
       reg.map (fun e =>
         (e.1, if e.2.inst.startCap = some .ok
               then { e.2 with status := .running } else e.2))) ∧
    (∀ e ∈ reg, e.2.inst.startCap = none →
       (e.1, e.2) ∈ (start_sub_agents reg errc).1 ∧
       (LogLevel.warning, "Agent has no start method")
         ∈ (start_sub_agents reg errc).2.2) ∧
    (∀ e ∈ reg, e.2.inst.startCap = some .ok →
       (e.1, { e.2 with status := AgentStatus.running })
         ∈ (start_sub_agents reg errc).1) := by
  refine ⟨?_, ?_, ?_⟩
  · show reg.map _ = _
    exact List.map_congr_left (fun e _ => by rw [start_agent_entry_fst])
  · intro e he hcap
    constructor
    · show (e.1, e.2) ∈ reg.map
        (fun x : String × AgentHandle => (x.1, (start_agent_entry x.2).1))
      refine List.mem_map.mpr ⟨e, he, ?_⟩
      show (e.1, (start_agent_entry e.2).1) = (e.1, e.2)
      rw [start_agent_entry_fst, hcap]
      simp
    · exact mem_start_sub_agents_logs reg errc e he _
        (by simp [start_agent_entry, try_start_agent, hcap])
  · intro e he hcap
    show (e.1, { e.2 with status := AgentStatus.running }) ∈ reg.map
        (fun x : String × AgentHandle => (x.1, (start_agent_entry x.2).1))
    refine List.mem_map.mpr ⟨e, he, ?_⟩
    show (e.1, (start_agent_entry e.2).1) =
      (e.1, { e.2 with status := AgentStatus.running })
    rw [start_agent_entry_fst, hcap]
    simp

/-- Witness for C9: the spec scenario — `a1` starts, `a2` and `a3` lack a
start capability and keep their `Ready` status, with a logged skip. -/
theorem startup_capability_detection_witness :
    (start_sub_agents
        [("a1", freshHandle refStartOk 0), ("a2", freshHandle refNoStart 0),
         ("a3", freshHandle refNoStart 0)] 0).1.map
        (fun e => (e.1, e.2.status)) =
      [("a1", AgentStatus.running), ("a2", AgentStatus.ready),
       ("a3", AgentStatus.ready)] ∧
    (LogLevel.warning, "Agent has no start method") ∈
      (start_sub_agents
        [("a1", freshHandle refStartOk 0), ("a2", freshHandle refNoStart 0),
         ("a3", freshHandle refNoStart 0)] 0).2.2 := by
  have h := startup_capability_detection
    [("a1", freshHandle refStartOk 0), ("a2", freshHandle refNoStart 0),
     ("a3", freshHandle refNoStart 0)] 0
  constructor
  · rw [h.1]; decide
  · exact (h.2.1 ("a2", freshHandle refNoStart 0) (by decide) (by decide)).2

-- ### C1: startup failure handling

/-- A one-agent registry whose only agent raises from `start()`. -/
def cexStartReg : List (String × AgentHandle) :=
  [("a1", freshHandle refStartRaises 0)]

/-- C1 counterexample: when an agent's `start()` raises, the code leaves that
agent's status at `Ready` and the global error count untouched, contradicting
the claim that the status becomes `Error` and the count is incremented. -/
theorem startup_failure_claim_counterexample :
    (start_sub_agents cexStartReg 0).2.1 = 0 ∧
    (start_sub_agents cexStartReg 0).1.map (fun e => (e.1, e.2.status)) =
      [("a1", AgentStatus.ready)] ∧
    ¬((start_sub_agents cexStartReg 0).1.map (fun e => (e.1, e.2.status)) =
        [("a1", AgentStatus.err)] ∧
      (start_sub_agents cexStartReg 0).2.1 = 0 + 1) := by
  decide

/-- C1 (amended): if an agent's `start()` raises, the failure is logged at
error severity and startup still processes every remaining agent, with no
exception escaping the routine; however the failed agent's handle is left
unchanged (its status is not set to `Error`) and the global error count is
not incremented. -/
theorem startup_failure_logged_only (reg : List (String × AgentHandle))
    (errc : Nat) :
    (start_sub_agents reg errc).2.1 = errc ∧
    (start_sub_agents reg errc).1.length = reg.length ∧
    (∀ e ∈ reg, e.2.inst.startCap = some .raises →
       (e.1, e.2) ∈ (start_sub_agents reg errc).1 ∧
       (LogLevel.errorLevel, "Failed to start agent")
         ∈ (start_sub_agents reg errc).2.2) := by
  refine ⟨rfl, by simp [start_sub_agents], ?_⟩
  intro e he hcap
  constructor
  · show (e.1, e.2) ∈ reg.map
      (fun x : String × AgentHandle => (x.1, (start_agent_entry x.2).1))
    refine List.mem_map.mpr ⟨e, he, ?_⟩
    show (e.1, (start_agent_entry e.2).1) = (e.1, e.2)
    rw [start_agent_entry_fst, hcap]
    simp
  · exact mem_start_sub_agents_logs reg errc e he _
      (by simp [start_agent_entry, try_start_agent, hcap])

/-- Witness for the amended C1 at a concrete failing agent. -/
theorem startup_failure_logged_only_witness :
    (start_sub_agents cexStartReg 5).2.1 = 5 ∧
    ("a1", freshHandle refStartRaises 0) ∈ (start_sub_agents cexStartReg 5).1 ∧
    (LogLevel.errorLevel, "Failed to start agent")
      ∈ (start_sub_agents cexStartReg 5).2.2 := by
  have h := startup_failure_logged_only cexStartReg 5
  have h3 := h.2.2 ("a1", freshHandle refStartRaises 0) (by decide) (by decide)
  exact ⟨h.1, h3.1, h3.2⟩

-- ### C2: cycle-boundary exception handling

/-- A configuration loaded from a document setting `polling_interval` to 3. -/
def cfgPoll3 : List (String × JVal) :=
  (load_config (some (.dict [("polling_interval", .jint 3)]))).1

/-- Cycle outcomes where the monitor step raises an ordinary exception. -/
def ocFailMonitor : CycleOutcomes :=
  { monitor := .error (.otherExc "boom"), update := .ok (),
    persist := .ok (), metrics := .ok () }

/-- C2 counterexample: the backoff pause is the fixed 5 seconds, but with a
loaded polling interval of 3 seconds it is not strictly shorter than the
configured polling interval. -/
theorem cycle_backoff_claim_counterexample :
    get_polling_interval cfgPoll3 = .jint 3 ∧
    (run_cycle cfgPoll3 ocFailMonitor
        { status := .running, error_count := 0 }).slept = some (.jint 5) ∧
    (run_cycle cfgPoll3 ocFailMonitor
        { status := .running, error_count := 0 }).state.error_count = 1 ∧
    ¬((5 : Int) < 3) := by
  decide

/-- C2 (amended): any non-cancellation exception escaping the monitor,
update, persist, or metrics steps is caught at the cycle boundary, logged at
error severity, increments `error_count` by exactly one, leaves the status
`Running` with the loop continuing to a next cycle, and is followed by a
fixed 5-second backoff — strictly shorter than the default polling interval
of 60 seconds, though not necessarily shorter than a configured one. -/
theorem cycle_failure_isolated (cfg : List (String × JVal))
    (oc : CycleOutcomes) (st : LoopState) (e : PyExc)
    (hsteps : cycle_steps oc = .error e) (hce : e ≠ .cancelled)
    (hrun : st.status = .running) :
    (run_cycle cfg oc st).logs = [(.errorLevel, "Error in main loop")] ∧
    (run_cycle cfg oc st).state.error_count = st.error_count + 1 ∧
    (run_cycle cfg oc st).slept = some (.jint 5) ∧
    (run_cycle cfg oc st).action = .nextCycle ∧
    (run_cycle cfg oc st).state.status = .running ∧
    get_polling_interval default_config = .jint 60 ∧ (5 : Int) < 60 := by
  have hrc : run_cycle cfg oc st =
      { state := { st with error_count := st.error_count + 1 },
        action := .nextCycle, slept := some (.jint 5),
        logs := [(.errorLevel, "Error in main loop")] } := by
    unfold run_cycle
    rw [hsteps]
    cases e with
    | cancelled => exact absurd rfl hce
    | fileNotFound => rfl
    | jsonDecode => rfl
    | valueErr m => rfl
    | attributeErr n => rfl
    | otherExc m => rfl
  rw [hrc]
  exact ⟨rfl, rfl, rfl, rfl, hrun, rfl, by decide⟩

/-- Witness for the amended C2 at a concrete failing cycle. -/
theorem cycle_failure_isolated_witness :
    (run_cycle default_config ocFailMonitor
        { status := .running, error_count := 7 }).state.error_count = 8 ∧
    (run_cycle default_config ocFailMonitor
        { status := .running, error_count := 7 }).slept = some (.jint 5) ∧
    (run_cycle default_config ocFailMonitor
        { status := .running, error_count := 7 }).state.status = .running := by
  have h := cycle_failure_isolated default_config ocFailMonitor
    { status := .running, error_count := 7 } (.otherExc "boom") rfl
    (by decide) rfl
  exact ⟨h.2.1, h.2.2.1, h.2.2.2.2.1⟩

-- ### C7: cooperative shutdown

theorem run_loop_not_running (fuel : Nat) (cfg : List (String × JVal))
    (stopAt tick : Nat) (st : LoopState)
    (h : st.status ≠ AgentStatus.running) :
    run_loop fuel cfg stopAt tick st = ([], st) := by
  cases fuel <;> simp [run_loop, h]

theorem get_polling_interval_default :
    get_polling_interval default_config = .jint 60 := rfl

/-- C7 counterexample: a stop request delivered mid-cycle (spec-modelled
handler, tick 1 of the first cycle) lets the cycle run its persistence step,
but the loop does not exit immediately after persistence: the metrics step
and the full 60-second sleep still execute before the `while` condition
observes the stop, so the trace is not the persist-terminated one the claim
requires, even though no new cycle begins and the final status is
`Terminated`. -/
theorem shutdown_claim_counterexample :
    (run_loop 3 default_config 1 0
        { status := .running, error_count := 0 }).1 =
      [.evMonitor, .evUpdate, .evPersist, .evMetrics, .evSleep (.jint 60)] ∧
    (run_loop 3 default_config 1 0
        { status := .running, error_count := 0 }).2 =
      { status := .terminated, error_count := 0 } ∧
    ¬((run_loop 3 default_config 1 0
        { status := .running, error_count := 0 }).1 =
      [.evMonitor, .evUpdate, .evPersist]) := by
  decide

/-- C7 (amended): whenever a stop request is delivered while a cycle is in
flight (spec-modelled handler setting the status to `Terminated`), the
current cycle still executes its persistence step and then also its metrics
step and its full polling-interval sleep; the loop exits at the next
cycle-boundary check — no new cycle begins — and the final status is
`Terminated` with the error count untouched. -/
theorem shutdown_finishes_cycle_then_terminates (fuel stopAt c : Nat)
    (hstop : stopAt < 5) :
    (run_loop (fuel + 1) default_config stopAt 0
        { status := .running, error_count := c }).1 =
      [.evMonitor, .evUpdate, .evPersist, .evMetrics, .evSleep (.jint 60)] ∧
    (run_loop (fuel + 1) default_config stopAt 0
        { status := .running, error_count := c }).2 =
      { status := .terminated, error_count := c } := by
  interval_cases stopAt <;>
    simp [run_loop, deliver, handle_shutdown, run_loop_not_running,
          get_polling_interval_default]

/-- Witness for the amended C7: stop requested at tick 1 of the first cycle. -/
theorem shutdown_finishes_cycle_then_terminates_witness :
    (run_loop 1 default_config 1 0
        { status := .running, error_count := 0 }).1 =
      [.evMonitor, .evUpdate, .evPersist, .evMetrics, .evSleep (.jint 60)] ∧
    (run_loop 1 default_config 1 0
        { status := .running, error_count := 0 }).2 =
      { status := .terminated, error_count := 0 } :=
  shutdown_finishes_cycle_then_terminates 0 1 0 (by decide)

end MasterAgentModel
